import Mathlib

/-!
Verification of the per-connection relay session state machine of
`node/ws-relay.mjs` (WebSocket relay between a browser client and an
upstream live-inference session).

The relevant JavaScript is embedded shallowly: the per-connection mutable
variables (`liveReady`, `closed`, `pending`) together with observable-effect
logs (upstream `live.send` calls, downstream `send` calls, teardown `close`
calls, console log lines) form a state record `RelayState`; each handler
(`shutdown`, `forward`, the `onOpen`/`onClose`/`onError` callbacks, the
connect-timeout callback, the connection-setup prologue) becomes a state
transformer, and an execution is a fold of a list of events over `step`.
-/

namespace WsRelay

/-- A JavaScript value as far as the relay inspects one: the relay tests
`m.systemInstruction` for truthiness and `typeof m.text === 'string'`, so we
keep just enough structure to decide those tests. -/
inductive JVal where
  | undef
  | null
  | str (s : String)
  | num (n : Int)
  | boolean (b : Bool)
  | obj
deriving Repr, DecidableEq

/-- JavaScript truthiness of a `JVal` (`undefined`, `null`, the empty string,
`0` and `false` are falsy; objects are truthy). -/
def JVal.truthy : JVal → Bool
  | .undef => false
  | .null => false
  | .str s => !(s == "")
  | .num n => !(n == 0)
  | .boolean b => b
  | .obj => true

/-- The `typeof v === 'string'` test. -/
def JVal.isString : JVal → Bool
  | .str _ => true
  | _ => false

/-- The string payload of a `JVal` known to be a string. -/
def JVal.getStr : JVal → String
  | .str s => s
  | _ => ""

/-- A parsed downstream client message, as the relay reads it: a `type`
discriminator plus the two payload fields the relay ever looks at
(`systemInstruction` and `text`), each possibly absent (`JVal.undef`). -/
structure ClientMsg where
  type : String
  systemInstruction : JVal := JVal.undef
  text : JVal := JVal.undef
deriving Repr, DecidableEq

/-- A directive sent on the upstream session handle: `live.send({setup:
{systemInstruction}})` or `live.send({input:{text}})`. -/
inductive Directive where
  | setup (systemInstruction : JVal)
  | inputText (text : String)
deriving Repr, DecidableEq

/-- A message sent downstream to the browser client. -/
inductive DownMsg where
  | status (value : String)
  | error (message : String)
  | text (t : String)
  | audio (encoding : String) (data : String)
deriving Repr, DecidableEq

/-- The per-connection state of one relay session.  `liveReady`, `closed` and
`pending` are the mutable variables of the `wss.on('connection')` closure;
the remaining fields log the observable effects in order: `upSends` the
`live.send` calls, `downSends` the downstream `send` calls, `liveCloseCalls`
and `clientCloseCalls` the best-effort closes performed by `shutdown`,
`endLog` the `log('end', why)` lines, `errLog` the error log lines, and
`upstreamAttempts` the number of `ai.live.connect` calls.  `timerActive`
models the pending connect-timeout timer (armed by setup, disarmed by
`clearTimeout` in `onOpen` or by firing). -/
structure RelayState where
  liveReady : Bool := false
  closed : Bool := false
  timerActive : Bool := false
  upstreamAttempts : Nat := 0
  pending : List ClientMsg := []
  upSends : List Directive := []
  downSends : List DownMsg := []
  liveCloseCalls : Nat := 0
  clientCloseCalls : Nat := 0
  endLog : List String := []
  errLog : List String := []
deriving Repr, DecidableEq

/-- `send(ws, obj)`: append a downstream message (the try/catch around
`ws.send` swallows failures, so the attempt itself is the observable). -/
def send (m : DownMsg) (s : RelayState) : RelayState :=
  { s with downSends := s.downSends ++ [m] }

/-- `shutdown(why)`: if `closed` already, return; otherwise set `closed`,
best-effort close the upstream handle and the downstream connection, and log
`end why`. -/
def shutdown (why : String) (s : RelayState) : RelayState :=
  if s.closed = true then s
  else
    { s with
      closed := true
      liveCloseCalls := s.liveCloseCalls + 1
      clientCloseCalls := s.clientCloseCalls + 1
      endLog := s.endLog ++ [why] }

/-- `forward(m)`: queue while not `liveReady`; otherwise translate `setup`
(with truthy `systemInstruction`) and `text` (with string `text`) into
upstream directives, turn `end` into a shutdown, and silently drop anything
else. -/
def forward (m : ClientMsg) (s : RelayState) : RelayState :=
  if s.liveReady = false then { s with pending := s.pending ++ [m] }
  else if m.type = "setup" ∧ m.systemInstruction.truthy = true then
    { s with upSends := s.upSends ++ [Directive.setup m.systemInstruction] }
  else if m.type = "text" ∧ m.text.isString = true then
    { s with upSends := s.upSends ++ [Directive.inputText m.text.getStr] }
  else if m.type = "end" then shutdown "client requested end" s
  else s

/-- The `onOpen` callback: `clearTimeout(timer)`, set `liveReady`, send
`status: open` downstream, then drain `pending.splice(0)` through `forward`
in order. -/
def onOpen (s : RelayState) : RelayState :=
  let s1 : RelayState :=
    { s with
      timerActive := false
      liveReady := true
      downSends := s.downSends ++ [DownMsg.status "open"] }
  s1.pending.foldl (fun st m => forward m st) { s1 with pending := [] }

/-- The `onClose` callback: send `status: closed` downstream, then
`shutdown('live closed')`. -/
def onCloseCb (s : RelayState) : RelayState :=
  shutdown "live closed" (send (DownMsg.status "closed") s)

/-- The `onError` callback: `log('live err', …)` then send the error message
downstream; it does not shut the session down. -/
def onErrorCb (msg : String) (s : RelayState) : RelayState :=
  send (DownMsg.error msg) { s with errLog := s.errLog ++ [msg] }

/-- The connect-timeout callback body: if `liveReady` is still false, send the
timeout error downstream and `shutdown('connect timeout')`. -/
def timerCb (s : RelayState) : RelayState :=
  if s.liveReady = false then
    shutdown "connect timeout"
      (send (DownMsg.error "Live connect timed out (15s) on relay") s)
  else s

/-- Modelled from the spec: the body of the `onResponse` callback is missing
from the source file (the file is truncated mid-expression at
`evt?.text ?? evt?.response?.output?.[0]?.c…`), so the upstream structured
response event is modelled from the spec: it may carry a direct text payload,
further candidate text payloads from the alternative nested response shapes
in a fixed priority order, and an optional binary audio payload. -/
structure RespEvent where
  text : Option String
  nestedTexts : List (Option String)
  audioData : Option (List Nat)
deriving Repr, DecidableEq

/-- First non-empty string among a priority-ordered list of candidates. -/
def firstNonEmptyText : List (Option String) → Option String
  | [] => none
  | some s :: rest => if s = "" then firstNonEmptyText rest else some s
  | none :: rest => firstNonEmptyText rest

/-- Modelled from the spec: text extraction from a structured response —
attempt the direct text field and then each alternative nested shape in a
fixed priority order and use the first non-empty result. -/
def extractText (evt : RespEvent) : Option String :=
  firstNonEmptyText (evt.text :: evt.nestedTexts)

/-- A character of the standard base64 alphabet. -/
def b64Char (n : Nat) : Char :=
  "ABCDEFGHIJKLMNOPQRSTUVWXYZabcdefghijklmnopqrstuvwxyz0123456789+/".toList.getD n 'A'

/-- Standard base64 encoding of a byte list (with `=` padding). -/
def base64Encode : List Nat → String
  | [] => ""
  | [a] =>
    String.mk [b64Char (a % 256 / 4), b64Char (a % 256 % 4 * 16), '=', '=']
  | [a, b] =>
    String.mk [b64Char (a % 256 / 4),
               b64Char (a % 256 % 4 * 16 + b % 256 / 16),
               b64Char (b % 256 % 16 * 4), '=']
  | a :: b :: c :: rest =>
    String.mk [b64Char (a % 256 / 4),
               b64Char (a % 256 % 4 * 16 + b % 256 / 16),
               b64Char (b % 256 % 16 * 4 + c % 256 / 64),
               b64Char (c % 256 % 64)] ++ base64Encode rest

/-- Modelled from the spec: the `onResponse` callback — forward the extracted
text (if any) as a `text` message downstream, and independently forward the
binary audio payload (if any) base64-encoded as an `audio` message tagged
with its encoding; neither payload present means no downstream message and no
error. -/
def onResponse (evt : RespEvent) (s : RelayState) : RelayState :=
  let s1 : RelayState :=
    match extractText evt with
    | some t => send (DownMsg.text t) s
    | none => s
  match evt.audioData with
  | some bytes => send (DownMsg.audio "mp3/base64" (base64Encode bytes)) s1
  | none => s1

/-- An event delivered to a relay session by its environment: a parsed
downstream message, downstream close/error, the upstream open/close/error/
response callbacks, or the connect-timeout timer firing. -/
inductive Event where
  | clientMsg (m : ClientMsg)
  | clientClose
  | clientError (msg : String)
  | liveOpen
  | liveClose
  | liveError (msg : String)
  | timerFire
  | liveResponse (evt : RespEvent)
deriving Repr, DecidableEq

/-- Dispatch one event to its handler.  `client.on('error')` only logs.
`timerFire` has an effect only while the timer is armed, and a fired timer is
spent. -/
def step (s : RelayState) : Event → RelayState
  | .clientMsg m => forward m s
  | .clientClose => shutdown "client closed" s
  | .clientError msg => { s with errLog := s.errLog ++ [msg] }
  | .liveOpen => onOpen s
  | .liveClose => onCloseCb s
  | .liveError msg => onErrorCb msg s
  | .timerFire => if s.timerActive = true then timerCb { s with timerActive := false } else s
  | .liveResponse evt => onResponse evt s

/-- Run a session over a list of events. -/
def run (s : RelayState) (es : List Event) : RelayState := es.foldl step s

/-- The state of a freshly accepted connection, before the credential check. -/
def initState : RelayState := {}

/-- JavaScript `String.prototype.trim`: strip leading and trailing
whitespace. -/
def jsTrim (s : String) : String :=
  String.mk (((s.toList.dropWhile Char.isWhitespace).reverse.dropWhile
    Char.isWhitespace).reverse)

/-- The connection-setup prologue of `wss.on('connection')`: trim the
credential from the environment; if it is empty, send the missing-key error
downstream and `shutdown('no key')` without attempting an upstream session;
otherwise arm the connect-timeout timer and attempt `ai.live.connect`. -/
def connectionSetup (envKey : Option String) (s : RelayState) : RelayState :=
  let apiKey := jsTrim (envKey.getD "")
  if apiKey = "" then
    shutdown "no key" (send (DownMsg.error "GEMINI_API_KEY missing on relay") s)
  else
    { s with timerActive := true, upstreamAttempts := s.upstreamAttempts + 1 }

/-- The state of a session whose setup succeeded (credential present, timer
armed, upstream connect attempted), awaiting the upstream callbacks. -/
def connState : RelayState := connectionSetup (some "key") initState

/-- The translation table of `forward` in the live phase, as a partial
function: valid `setup` and `text` messages map to their upstream directives,
everything else to `none`. -/
def translate (m : ClientMsg) : Option Directive :=
  if m.type = "setup" ∧ m.systemInstruction.truthy = true then
    some (Directive.setup m.systemInstruction)
  else if m.type = "text" ∧ m.text.isString = true then
    some (Directive.inputText m.text.getStr)
  else none

/-! Basic preservation lemmas about the individual handlers. -/

theorem run_cons (s : RelayState) (e : Event) (es : List Event) :
    run s (e :: es) = run (step s e) es := rfl

theorem run_append (s : RelayState) (a b : List Event) :
    run s (a ++ b) = run (run s a) b := by
  simp [run, List.foldl_append]

theorem shutdown_liveReady (why : String) (s : RelayState) :
    (shutdown why s).liveReady = s.liveReady := by
  unfold shutdown; split <;> rfl

theorem shutdown_upSends (why : String) (s : RelayState) :
    (shutdown why s).upSends = s.upSends := by
  unfold shutdown; split <;> rfl

theorem shutdown_timerActive (why : String) (s : RelayState) :
    (shutdown why s).timerActive = s.timerActive := by
  unfold shutdown; split <;> rfl

theorem shutdown_closed (why : String) (s : RelayState) :
    (shutdown why s).closed = true := by
  unfold shutdown
  split
  · next h => exact h
  · rfl

theorem forward_not_ready (m : ClientMsg) (s : RelayState) (h : s.liveReady = false) :
    forward m s = { s with pending := s.pending ++ [m] } := by
  simp [forward, h]

theorem forward_liveReady (m : ClientMsg) (s : RelayState) :
    (forward m s).liveReady = s.liveReady := by
  unfold forward
  split
  · rfl
  · split
    · rfl
    · split
      · rfl
      · split
        · exact shutdown_liveReady _ _
        · rfl

theorem forward_timerActive (m : ClientMsg) (s : RelayState) :
    (forward m s).timerActive = s.timerActive := by
  unfold forward
  split
  · rfl
  · split
    · rfl
    · split
      · rfl
      · split
        · exact shutdown_timerActive _ _
        · rfl

theorem forward_upSends_live (m : ClientMsg) (s : RelayState)
    (h : s.liveReady = true) :
    (forward m s).upSends = s.upSends ++ (translate m).toList := by
  by_cases h1 : m.type = "setup" ∧ m.systemInstruction.truthy = true
  · simp [forward, translate, h, h1]
  · by_cases h2 : m.type = "text" ∧ m.text.isString = true
    · simp [forward, translate, h, h1, h2]
    · by_cases h3 : m.type = "end"
      · simp [forward, translate, h, h1, h2, h3, shutdown_upSends]
      · simp [forward, translate, h, h1, h2, h3]

theorem foldl_forward_liveReady (ms : List ClientMsg) (s : RelayState) :
    (ms.foldl (fun st m => forward m st) s).liveReady = s.liveReady := by
  induction ms generalizing s with
  | nil => rfl
  | cons m tl ih => rw [List.foldl_cons, ih, forward_liveReady]

theorem foldl_forward_timerActive (ms : List ClientMsg) (s : RelayState) :
    (ms.foldl (fun st m => forward m st) s).timerActive = s.timerActive := by
  induction ms generalizing s with
  | nil => rfl
  | cons m tl ih => rw [List.foldl_cons, ih, forward_timerActive]

theorem foldl_forward_upSends (ms : List ClientMsg) (s : RelayState)
    (h : s.liveReady = true) :
    (ms.foldl (fun st m => forward m st) s).upSends
      = s.upSends ++ ms.filterMap translate := by
  induction ms generalizing s with
  | nil => simp
  | cons m tl ih =>
    rw [List.foldl_cons, ih _ (by rw [forward_liveReady]; exact h),
        forward_upSends_live m s h, List.filterMap_cons]
    cases translate m <;> simp

theorem onResponse_liveReady (evt : RespEvent) (s : RelayState) :
    (onResponse evt s).liveReady = s.liveReady := by
  unfold onResponse
  cases hx : extractText evt <;> cases ha : evt.audioData <;> simp [hx, ha, send]

theorem onResponse_upSends (evt : RespEvent) (s : RelayState) :
    (onResponse evt s).upSends = s.upSends := by
  unfold onResponse
  cases hx : extractText evt <;> cases ha : evt.audioData <;> simp [hx, ha, send]

/-! Claim C2: nothing is sent on the upstream handle while the readiness flag
is still false. -/

theorem step_preopen (s : RelayState) (e : Event) (hr : s.liveReady = false)
    (he : e ≠ Event.liveOpen) :
    (step s e).liveReady = false ∧ (step s e).upSends = s.upSends := by
  cases e with
  | clientMsg m =>
    rw [show step s (Event.clientMsg m) = forward m s from rfl,
        forward_not_ready m s hr]
    exact ⟨hr, rfl⟩
  | clientClose =>
    exact ⟨(shutdown_liveReady _ _).trans hr, shutdown_upSends _ _⟩
  | clientError msg => exact ⟨hr, rfl⟩
  | liveOpen => exact absurd rfl he
  | liveClose =>
    exact ⟨(shutdown_liveReady _ _).trans hr, shutdown_upSends _ _⟩
  | liveError msg => exact ⟨hr, rfl⟩
  | timerFire =>
    show ((if s.timerActive = true then timerCb { s with timerActive := false } else s)).liveReady = false
      ∧ ((if s.timerActive = true then timerCb { s with timerActive := false } else s)).upSends = s.upSends
    split
    · simp [timerCb, hr, shutdown_liveReady, shutdown_upSends, send]
    · exact ⟨hr, rfl⟩
  | liveResponse evt =>
    exact ⟨(onResponse_liveReady _ _).trans hr, onResponse_upSends _ _⟩

theorem run_preopen (es : List Event) (s : RelayState) (hr : s.liveReady = false)
    (he : ∀ e ∈ es, e ≠ Event.liveOpen) :
    (run s es).liveReady = false ∧ (run s es).upSends = s.upSends := by
  induction es generalizing s with
  | nil => exact ⟨hr, rfl⟩
  | cons e tl ih =>
    have h1 := step_preopen s e hr (he e (List.mem_cons_self e tl))
    have h2 := ih (step s e) h1.1 (fun x hx => he x (List.mem_cons_of_mem e hx))
    exact ⟨h2.1, h2.2.trans h1.2⟩

/-- Claim C2: for every timing of client message arrivals (modelled as an
arbitrary event sequence containing no upstream-open event), no send on the
upstream session handle occurs: the `upSends` log of the session stays empty,
and the readiness flag stays false. -/
theorem c2_no_premature_upstream_send (es : List Event)
    (he : ∀ e ∈ es, e ≠ Event.liveOpen) :
    (run connState es).upSends = [] ∧ (run connState es).liveReady = false := by
  have h := run_preopen es connState (by decide) he
  exact ⟨h.2.trans (by decide), h.1⟩

/-- Witness for C2 at a concrete event sequence. -/
theorem c2_no_premature_upstream_send_witness :
    (run connState
        [Event.clientMsg ⟨"text", JVal.undef, JVal.str "hi"⟩,
         Event.clientMsg ⟨"setup", JVal.str "be nice", JVal.undef⟩,
         Event.timerFire]).upSends = []
    ∧ (run connState
        [Event.clientMsg ⟨"text", JVal.undef, JVal.str "hi"⟩,
         Event.clientMsg ⟨"setup", JVal.str "be nice", JVal.undef⟩,
         Event.timerFire]).liveReady = false :=
  c2_no_premature_upstream_send _ (by decide)

/-! Claim C5: an `end` message triggers shutdown and forwards nothing. -/

/-- Claim C5: a downstream message of type `end` never causes an upstream
send, and when processed in the live phase of a not-yet-closed session it
triggers shutdown with reason `client requested end`. -/
theorem c5_end_triggers_shutdown (m : ClientMsg) (s : RelayState)
    (hm : m.type = "end") :
    (forward m s).upSends = s.upSends
    ∧ (s.liveReady = true → s.closed = false →
        (forward m s).closed = true
        ∧ (forward m s).endLog = s.endLog ++ ["client requested end"]) := by
  have hns : ¬(m.type = "setup" ∧ m.systemInstruction.truthy = true) := by
    simp [hm]
  have hnt : ¬(m.type = "text" ∧ m.text.isString = true) := by
    simp [hm]
  constructor
  · by_cases h0 : s.liveReady = false
    · simp [forward, h0]
    · simp [forward, h0, hns, hnt, hm, shutdown_upSends]
  · intro hr hc
    simp [forward, hr, hns, hnt, hm, shutdown, hc]

/-- Witness for C5: an `end` message in the live phase of a fresh session. -/
theorem c5_end_triggers_shutdown_witness :
    (forward ⟨"end", JVal.undef, JVal.undef⟩ (run connState [Event.liveOpen])).upSends
        = (run connState [Event.liveOpen]).upSends
    ∧ (forward ⟨"end", JVal.undef, JVal.undef⟩ (run connState [Event.liveOpen])).closed = true
    ∧ (forward ⟨"end", JVal.undef, JVal.undef⟩ (run connState [Event.liveOpen])).endLog
        = (run connState [Event.liveOpen]).endLog ++ ["client requested end"] := by
  have h := c5_end_triggers_shutdown ⟨"end", JVal.undef, JVal.undef⟩
    (run connState [Event.liveOpen]) rfl
  exact ⟨h.1, (h.2 (by decide) (by decide)).1, (h.2 (by decide) (by decide)).2⟩

/-! Claim C6: the claim says every transport error event triggers shutdown;
in the code neither the downstream `error` handler (which only logs) nor the
upstream `onError` callback (which logs and reports downstream) invokes
`shutdown`. -/

/-- Claim C6 counterexample: after upstream open, a downstream socket error
event leaves the session unclosed with no teardown, and so does an upstream
error event — neither triggers shutdown. -/
theorem c6_counterexample :
    (run connState [Event.liveOpen, Event.clientError "boom"]).closed = false
    ∧ (run connState [Event.liveOpen, Event.clientError "boom"]).endLog = []
    ∧ (run connState [Event.liveOpen, Event.liveError "boom"]).closed = false
    ∧ (run connState [Event.liveOpen, Event.liveError "boom"]).endLog = [] := by
  decide

/-- Claim C6 amended: transport error events do NOT trigger shutdown — a
downstream socket error event is only logged, and an upstream error event is
logged and reported downstream as an error message; both leave all other
session state unchanged. -/
theorem c6_amended_error_events_no_shutdown (s : RelayState) (msg : String) :
    step s (Event.clientError msg) = { s with errLog := s.errLog ++ [msg] }
    ∧ step s (Event.liveError msg)
        = { s with errLog := s.errLog ++ [msg]
                   downSends := s.downSends ++ [DownMsg.error msg] } :=
  ⟨rfl, rfl⟩

/-! Claim C8: missing-credential gate. -/

/-- Claim C8: when the configured credential trims to the empty string, the
session setup sends exactly one error message downstream, performs shutdown
with reason `no key`, and makes zero upstream session creation attempts. -/
theorem c8_credential_gate (envKey : Option String)
    (h : jsTrim (envKey.getD "") = "") :
    connectionSetup envKey initState
      = { closed := true
          downSends := [DownMsg.error "GEMINI_API_KEY missing on relay"]
          liveCloseCalls := 1
          clientCloseCalls := 1
          endLog := ["no key"] }
    ∧ (connectionSetup envKey initState).upstreamAttempts = 0 := by
  have : connectionSetup envKey initState
      = shutdown "no key"
          (send (DownMsg.error "GEMINI_API_KEY missing on relay") initState) := by
    simp [connectionSetup, h]
  rw [this]
  exact ⟨rfl, rfl⟩

/-- Witness for C8: no credential configured at all. -/
theorem c8_credential_gate_witness :
    connectionSetup none initState
      = { closed := true
          downSends := [DownMsg.error "GEMINI_API_KEY missing on relay"]
          liveCloseCalls := 1
          clientCloseCalls := 1
          endLog := ["no key"] }
    ∧ (connectionSetup none initState).upstreamAttempts = 0 :=
  c8_credential_gate none (by decide)

/-! Claim C10: unrecognized or guard-failing messages are silently ignored in
the live phase. -/

/-- Claim C10: with the readiness flag true, a message whose type is none of
`setup`/`text`/`end`, or a `setup` without truthy `systemInstruction`, or a
`text` whose `text` field is not a string, leaves the session state exactly
unchanged: nothing upstream, nothing downstream, no state change. -/
theorem c10_silent_ignore (m : ClientMsg) (s : RelayState)
    (hr : s.liveReady = true)
    (h1 : ¬(m.type = "setup" ∧ m.systemInstruction.truthy = true))
    (h2 : ¬(m.type = "text" ∧ m.text.isString = true))
    (h3 : m.type ≠ "end") :
    forward m s = s := by
  simp [forward, hr, h1, h2, h3]

/-- Witness for C10: an unrecognized message type in the live phase. -/
theorem c10_silent_ignore_witness :
    forward ⟨"ping", JVal.undef, JVal.undef⟩ (run connState [Event.liveOpen])
      = run connState [Event.liveOpen] :=
  c10_silent_ignore _ _ (by decide) (by decide) (by decide) (by decide)

/-! Claim C3: idempotent shutdown — the teardown invariant.  `TeardownInv`
says a session has performed at most one teardown, and none at all while it
is still open. -/

/-- At most one teardown has happened, and none while the session is open. -/
def TeardownInv (s : RelayState) : Prop :=
  s.endLog.length ≤ 1 ∧ s.liveCloseCalls ≤ 1 ∧ s.clientCloseCalls ≤ 1 ∧
    (s.closed = false → s.endLog = [] ∧ s.liveCloseCalls = 0 ∧ s.clientCloseCalls = 0)

theorem teardownInv_shutdown (why : String) (s : RelayState)
    (h : TeardownInv s) : TeardownInv (shutdown why s) := by
  unfold shutdown
  by_cases hc : s.closed = true
  · simpa [hc] using h
  · have hb : s.closed = false := by simpa using hc
    obtain ⟨-, -, -, h4⟩ := h
    obtain ⟨e1, e2, e3⟩ := h4 hb
    simp [hc, TeardownInv, e1, e2, e3]

theorem teardownInv_send (m : DownMsg) (s : RelayState)
    (h : TeardownInv s) : TeardownInv (send m s) := h

theorem teardownInv_forward (m : ClientMsg) (s : RelayState)
    (h : TeardownInv s) : TeardownInv (forward m s) := by
  unfold forward
  by_cases h0 : s.liveReady = false
  · simp only [h0, if_pos]; exact h
  · by_cases h1 : m.type = "setup" ∧ m.systemInstruction.truthy = true
    · simp only [h0, h1, if_neg, if_pos]; exact h
    · by_cases h2 : m.type = "text" ∧ m.text.isString = true
      · simp only [h0, h1, h2, if_neg, if_pos]; exact h
      · by_cases h3 : m.type = "end"
        · simp only [h0, h1, h2, h3, if_neg, if_pos]
          exact teardownInv_shutdown _ _ h
        · simp only [h0, h1, h2, h3, if_neg]; exact h

theorem teardownInv_onResponse (evt : RespEvent) (s : RelayState)
    (h : TeardownInv s) : TeardownInv (onResponse evt s) := by
  unfold onResponse
  cases hx : extractText evt <;> cases ha : evt.audioData <;>
    simp only [hx, ha] <;> exact h

theorem teardownInv_foldl (ms : List ClientMsg) (s : RelayState)
    (h : TeardownInv s) :
    TeardownInv (ms.foldl (fun st m => forward m st) s) := by
  induction ms generalizing s with
  | nil => exact h
  | cons m tl ih => exact ih _ (teardownInv_forward m s h)

theorem teardownInv_step (s : RelayState) (e : Event)
    (h : TeardownInv s) : TeardownInv (step s e) := by
  cases e with
  | clientMsg m => exact teardownInv_forward m s h
  | clientClose => exact teardownInv_shutdown _ _ h
  | clientError msg => exact h
  | liveOpen => exact teardownInv_foldl _ _ h
  | liveClose => exact teardownInv_shutdown _ _ (teardownInv_send _ _ h)
  | liveError msg => exact teardownInv_send _ _ h
  | timerFire =>
    show TeardownInv (if s.timerActive = true then timerCb { s with timerActive := false } else s)
    split
    · unfold timerCb
      split
      · exact teardownInv_shutdown _ _ (teardownInv_send _ _ h)
      · exact h
    · exact h
  | liveResponse evt => exact teardownInv_onResponse evt s h

theorem teardownInv_run (es : List Event) (s : RelayState)
    (h : TeardownInv s) : TeardownInv (run s es) := by
  induction es generalizing s with
  | nil => exact h
  | cons e tl ih => exact ih _ (teardownInv_step s e h)

theorem teardownInv_connectionSetup (envKey : Option String) (s : RelayState)
    (h : TeardownInv s) : TeardownInv (connectionSetup envKey s) := by
  show TeardownInv
    (if jsTrim (envKey.getD "") = "" then
      shutdown "no key" (send (DownMsg.error "GEMINI_API_KEY missing on relay") s)
    else { s with timerActive := true, upstreamAttempts := s.upstreamAttempts + 1 })
  split
  · exact teardownInv_shutdown _ _ (teardownInv_send _ _ h)
  · exact h

/-- Claim C3: shutdown is idempotent — a shutdown invocation on an already
closed session is a complete no-op; the first invocation sets `closed` and
performs the teardown side effects (one upstream close, one downstream close,
one log entry with the reason); and along any event sequence of any session
(with or without a credential) at most one teardown occurs. -/
theorem c3_idempotent_shutdown :
    (∀ (why : String) (s : RelayState), s.closed = true → shutdown why s = s)
    ∧ (∀ (why : String) (s : RelayState), s.closed = false →
        (shutdown why s).closed = true
        ∧ (shutdown why s).endLog = s.endLog ++ [why]
        ∧ (shutdown why s).liveCloseCalls = s.liveCloseCalls + 1
        ∧ (shutdown why s).clientCloseCalls = s.clientCloseCalls + 1)
    ∧ (∀ (envKey : Option String) (es : List Event),
        (run (connectionSetup envKey initState) es).endLog.length ≤ 1
        ∧ (run (connectionSetup envKey initState) es).liveCloseCalls ≤ 1
        ∧ (run (connectionSetup envKey initState) es).clientCloseCalls ≤ 1) := by
  refine ⟨?_, ?_, ?_⟩
  · intro why s h
    simp [shutdown, h]
  · intro why s h
    simp [shutdown, h]
  · intro envKey es
    have h0 : TeardownInv initState := by
      refine ⟨by decide, by decide, by decide, fun _ => ⟨rfl, rfl, rfl⟩⟩
    have h := teardownInv_run es _ (teardownInv_connectionSetup envKey initState h0)
    exact ⟨h.1, h.2.1, h.2.2.1⟩

/-- Witness for C3: a double shutdown, a first shutdown, and a concrete
session run with two competing close triggers. -/
theorem c3_idempotent_shutdown_witness :
    shutdown "b" (shutdown "a" initState) = shutdown "a" initState
    ∧ (shutdown "a" initState).closed = true
    ∧ (run (connectionSetup (some "key") initState)
        [Event.clientClose, Event.liveClose]).endLog.length ≤ 1 :=
  ⟨c3_idempotent_shutdown.1 "b" (shutdown "a" initState) (by decide),
   (c3_idempotent_shutdown.2.1 "a" initState (by decide)).1,
   (c3_idempotent_shutdown.2.2 (some "key") [Event.clientClose, Event.liveClose]).1⟩

/-! Claim C4: the claim says that once `closed` is true no subsequent event
produces any observable effect.  In the code only `shutdown` itself checks
`closed`: the message handler, the timer callback and the upstream callbacks
are not guarded, so e.g. a downstream message arriving after `closed` (while
`liveReady` is true) still performs an upstream send. -/

/-- Monotonicity helper: no handler ever resets `closed` to false. -/
theorem forward_closed_mono (m : ClientMsg) (s : RelayState)
    (h : s.closed = true) : (forward m s).closed = true := by
  unfold forward
  split
  · exact h
  · split
    · exact h
    · split
      · exact h
      · split
        · exact shutdown_closed _ _
        · exact h

theorem foldl_forward_closed_mono (ms : List ClientMsg) (s : RelayState)
    (h : s.closed = true) :
    (ms.foldl (fun st m => forward m st) s).closed = true := by
  induction ms generalizing s with
  | nil => exact h
  | cons m tl ih => exact ih _ (forward_closed_mono m s h)

theorem onResponse_closed_mono (evt : RespEvent) (s : RelayState)
    (h : s.closed = true) : (onResponse evt s).closed = true := by
  unfold onResponse
  cases hx : extractText evt <;> cases ha : evt.audioData <;>
    simp only [hx, ha] <;> exact h

theorem step_closed_mono (s : RelayState) (e : Event)
    (h : s.closed = true) : (step s e).closed = true := by
  cases e with
  | clientMsg m => exact forward_closed_mono m s h
  | clientClose => exact shutdown_closed _ _
  | clientError msg => exact h
  | liveOpen => exact foldl_forward_closed_mono _ _ h
  | liveClose => exact shutdown_closed _ _
  | liveError msg => exact h
  | timerFire =>
    show (if s.timerActive = true then timerCb { s with timerActive := false } else s).closed = true
    split
    · unfold timerCb
      split
      · exact shutdown_closed _ _
      · exact h
    · exact h
  | liveResponse evt => exact onResponse_closed_mono evt s h

theorem run_closed_mono (es : List Event) (s : RelayState)
    (h : s.closed = true) : (run s es).closed = true := by
  induction es generalizing s with
  | nil => exact h
  | cons e tl ih => exact ih _ (step_closed_mono s e h)

/-- Claim C4 counterexample: after upstream open, a client `end` closes the
session (`closed = true`), yet a downstream `text` message arriving after
that still produces an observable upstream send. -/
theorem c4_counterexample :
    (run connState [Event.liveOpen, Event.clientMsg ⟨"end", JVal.undef, JVal.undef⟩]).closed
        = true
    ∧ (run connState
        [Event.liveOpen, Event.clientMsg ⟨"end", JVal.undef, JVal.undef⟩,
         Event.clientMsg ⟨"text", JVal.undef, JVal.str "hi"⟩]).upSends
        = [Directive.inputText "hi"] := by
  decide

/-- Claim C4 amended: once `closed` is true, every further shutdown
invocation is a complete no-op and `closed` stays true under every further
event sequence; however, the other event handlers are not guarded by
`closed`, so a downstream message arriving after `closed` while the readiness
flag is true still triggers an upstream send (see the counterexample). -/
theorem c4_amended_closed_absorbing (s : RelayState) (h : s.closed = true) :
    (∀ why : String, shutdown why s = s)
    ∧ (∀ es : List Event, (run s es).closed = true) := by
  constructor
  · intro why
    simp [shutdown, h]
  · intro es
    exact run_closed_mono es s h

/-- Witness for C4 (amended) at a concretely closed session state. -/
theorem c4_amended_closed_absorbing_witness :
    shutdown "b" (shutdown "a" initState) = shutdown "a" initState
    ∧ (run (shutdown "a" initState) [Event.clientClose, Event.timerFire]).closed = true :=
  ⟨(c4_amended_closed_absorbing (shutdown "a" initState) (by decide)).1 "b",
   (c4_amended_closed_absorbing (shutdown "a" initState) (by decide)).2
     [Event.clientClose, Event.timerFire]⟩

/-! Claim C1: FIFO delivery across the queued-pending phase and the live
phase. -/

theorem connState_eq :
    connState = { timerActive := true, upstreamAttempts := 1 } := by decide

theorem run_clientMsgs (ms : List ClientMsg) (s : RelayState) :
    run s (ms.map Event.clientMsg) = ms.foldl (fun st m => forward m st) s := by
  induction ms generalizing s with
  | nil => rfl
  | cons m tl ih =>
    rw [List.map_cons, run_cons, ih]
    rfl

theorem queue_phase (ms : List ClientMsg) (s : RelayState)
    (h : s.liveReady = false) :
    run s (ms.map Event.clientMsg) = { s with pending := s.pending ++ ms } := by
  induction ms generalizing s with
  | nil => simp [run]
  | cons m tl ih =>
    rw [List.map_cons, run_cons,
        show step s (Event.clientMsg m) = forward m s from rfl,
        forward_not_ready m s h, ih { s with pending := s.pending ++ [m] } h]
    simp

theorem filterMap_translate_length (ms : List ClientMsg)
    (h : ∀ m ∈ ms, (translate m).isSome) :
    (ms.filterMap translate).length = ms.length := by
  induction ms with
  | nil => rfl
  | cons m tl ih =>
    rw [List.filterMap_cons]
    rcases hx : translate m with _ | d
    · exact absurd (hx ▸ h m (List.mem_cons_self m tl)) (by simp)
    · simp [ih (fun x hmem => h x (List.mem_cons_of_mem m hmem))]

theorem onOpen_upSends (s : RelayState) :
    (onOpen s).upSends = s.upSends ++ s.pending.filterMap translate := by
  show (s.pending.foldl (fun st m => forward m st)
      { s with timerActive := false, liveReady := true,
               downSends := s.downSends ++ [DownMsg.status "open"],
               pending := [] }).upSends
    = s.upSends ++ s.pending.filterMap translate
  rw [foldl_forward_upSends _ _ rfl]

theorem onOpen_liveReady (s : RelayState) : (onOpen s).liveReady = true := by
  show (s.pending.foldl (fun st m => forward m st)
      { s with timerActive := false, liveReady := true,
               downSends := s.downSends ++ [DownMsg.status "open"],
               pending := [] }).liveReady = true
  rw [foldl_forward_liveReady]

theorem onOpen_timerActive (s : RelayState) : (onOpen s).timerActive = false := by
  show (s.pending.foldl (fun st m => forward m st)
      { s with timerActive := false, liveReady := true,
               downSends := s.downSends ++ [DownMsg.status "open"],
               pending := [] }).timerActive = false
  rw [foldl_forward_timerActive]

theorem run_clientMsgs_upSends (ms : List ClientMsg) (s : RelayState)
    (h : s.liveReady = true) :
    (run s (ms.map Event.clientMsg)).upSends = s.upSends ++ ms.filterMap translate := by
  rw [run_clientMsgs, foldl_forward_upSends _ _ h]

/-- Claim C1: for N translatable downstream messages arriving before the
upstream open event and M after it, the upstream handle receives exactly the
N+M translated directives, in original arrival order, with none dropped and
none duplicated: the upstream send log is the pointwise translation of the
arrival sequence and has length N+M. -/
theorem c1_fifo_ordering (pre post : List ClientMsg)
    (h : ∀ m ∈ pre ++ post, (translate m).isSome) :
    (run connState
        (pre.map Event.clientMsg ++ Event.liveOpen :: post.map Event.clientMsg)).upSends
      = (pre ++ post).filterMap translate
    ∧ ((pre ++ post).filterMap translate).length = pre.length + post.length := by
  constructor
  · rw [run_append, queue_phase pre connState (by decide), run_cons]
    show (run (onOpen { connState with pending := connState.pending ++ pre })
        (post.map Event.clientMsg)).upSends = _
    rw [run_clientMsgs_upSends _ _ (onOpen_liveReady _), onOpen_upSends]
    show connState.upSends ++ (connState.pending ++ pre).filterMap translate
        ++ post.filterMap translate = _
    rw [connState_eq]
    simp [List.filterMap_append]
  · rw [filterMap_translate_length _ h, List.length_append]

/-- Witness for C1: two messages queued before open, one after. -/
theorem c1_fifo_ordering_witness :
    (run connState
        (([⟨"setup", JVal.str "sys", JVal.undef⟩,
           ⟨"text", JVal.undef, JVal.str "a"⟩] : List ClientMsg).map Event.clientMsg
          ++ Event.liveOpen ::
            ([⟨"text", JVal.undef, JVal.str "b"⟩] : List ClientMsg).map Event.clientMsg)).upSends
      = (([⟨"setup", JVal.str "sys", JVal.undef⟩, ⟨"text", JVal.undef, JVal.str "a"⟩]
            ++ [⟨"text", JVal.undef, JVal.str "b"⟩] : List ClientMsg)).filterMap translate
    ∧ ((([⟨"setup", JVal.str "sys", JVal.undef⟩, ⟨"text", JVal.undef, JVal.str "a"⟩]
            ++ [⟨"text", JVal.undef, JVal.str "b"⟩] : List ClientMsg)).filterMap translate).length
      = 2 + 1 :=
  c1_fifo_ordering
    [⟨"setup", JVal.str "sys", JVal.undef⟩, ⟨"text", JVal.undef, JVal.str "a"⟩]
    [⟨"text", JVal.undef, JVal.str "b"⟩] (by decide)

/-! Claim C7: the connect timeout. -/

/-- Claim C7: whatever client messages arrive beforehand, if the upstream
open event has not fired when the connect timer does, the client receives
exactly one timeout error message and the session shuts down with reason
`connect timeout`; if open fires first, the timer is disarmed by open
(so it can never fire), and a disarmed timer event is a complete no-op. -/
theorem c7_connect_timeout (msgs : List ClientMsg) :
    (run connState (msgs.map Event.clientMsg ++ [Event.timerFire])).downSends
      = [DownMsg.error "Live connect timed out (15s) on relay"]
    ∧ (run connState (msgs.map Event.clientMsg ++ [Event.timerFire])).closed = true
    ∧ (run connState (msgs.map Event.clientMsg ++ [Event.timerFire])).endLog
      = ["connect timeout"]
    ∧ (run connState (msgs.map Event.clientMsg ++ [Event.liveOpen])).timerActive = false
    ∧ (∀ s : RelayState, s.timerActive = false → step s Event.timerFire = s) := by
  refine ⟨?_, ?_, ?_, ?_, ?_⟩
  · rw [connState_eq, run_append, queue_phase msgs _ rfl]
    simp [run, step, timerCb, shutdown, send]
  · rw [connState_eq, run_append, queue_phase msgs _ rfl]
    simp [run, step, timerCb, shutdown, send]
  · rw [connState_eq, run_append, queue_phase msgs _ rfl]
    simp [run, step, timerCb, shutdown, send]
  · rw [connState_eq, run_append, queue_phase msgs _ rfl]
    exact onOpen_timerActive _
  · intro s h
    simp [step, h]

/-- Witness for C7: a bare timeout, and a disarmed timer doing nothing. -/
theorem c7_connect_timeout_witness :
    (run connState [Event.timerFire]).downSends
      = [DownMsg.error "Live connect timed out (15s) on relay"]
    ∧ (run connState [Event.timerFire]).closed = true
    ∧ step initState Event.timerFire = initState := by
  have h := c7_connect_timeout []
  exact ⟨h.1, h.2.1, h.2.2.2.2 initState (by decide)⟩

/-! Claim C9: response extraction (spec-modelled, since the `onResponse` body
is truncated in the source file). -/

/-- Claim C9: an upstream structured-response event carrying both an
extractable text payload and a binary audio payload yields exactly two
downstream messages — the `text` message and the `audio` message with the
base64-encoded payload tagged with its encoding — and nothing else; an event
carrying neither yields zero downstream messages and no error (the state is
unchanged). -/
theorem c9_response_extraction (evt : RespEvent) (s : RelayState) :
    (∀ (t : String) (bytes : List Nat),
        extractText evt = some t → evt.audioData = some bytes →
        onResponse evt s
          = { s with downSends := s.downSends
              ++ [DownMsg.text t, DownMsg.audio "mp3/base64" (base64Encode bytes)] })
    ∧ (extractText evt = none → evt.audioData = none → onResponse evt s = s) := by
  constructor
  · intro t bytes ht ha
    simp [onResponse, ht, ha, send]
  · intro ht ha
    simp [onResponse, ht, ha]

/-- Witness for C9: one event with both payloads, one with neither (its text
candidates being only misses and empty strings). -/
theorem c9_response_extraction_witness :
    onResponse ⟨some "hello", [], some [1, 2, 3]⟩ initState
      = { initState with downSends := initState.downSends
          ++ [DownMsg.text "hello",
              DownMsg.audio "mp3/base64" (base64Encode [1, 2, 3])] }
    ∧ onResponse ⟨none, [none, some ""], none⟩ initState = initState :=
  ⟨(c9_response_extraction ⟨some "hello", [], some [1, 2, 3]⟩ initState).1
      "hello" [1, 2, 3] (by decide) rfl,
   (c9_response_extraction ⟨none, [none, some ""], none⟩ initState).2 (by decide) rfl⟩

end WsRelay
